import Mathlib

/-!
Shallow embedding of `src/sync_to_ssds.cpp` — a watch-and-mirror utility.

The C++ program:
* `is_drive_mounted` opens `/etc/mtab`; on failure it logs to stderr and
  returns `false`; otherwise it walks the entries, printing each mount
  directory, breaking at the first entry equal to the queried path, then
  prints the boolean result and returns it.
* `sync_directory` builds the shell command
  `"rsync -avz --delete " + src + " " + dest`, runs it via `system`, and
  logs one success line (exit status 0) or one error line (non-zero).
* `sync_to_all_drives` iterates the destination list in order and calls
  `sync_directory` for each destination reported mounted.
* `main` validates arguments, sets up inotify, prints a banner, performs
  one initial `sync_to_all_drives`, then loops: each successful `read`
  delivers a buffer of inotify event records that is scanned front to
  back; the first record with a non-zero name length and a mask hitting
  the watched event classes triggers one `sync_to_all_drives` and a
  `break` out of the scan; a failed `read` logs once, breaks the outer
  loop, and the process returns 0.

The embedding models the environment explicitly: the mount-table snapshot
seen by the q-th `setmntent` call of the run, and the exit status returned
by the m-th `system` invocation, are supplied by a `World`; `read` results
are supplied as a finite list (an exhausted list leaves the process
blocked in `read`, i.e. still running).
-/

/-- One line written to stdout or stderr, tagged by its origin in the
source. `mntDirLine` is `std::cout << entry->mnt_dir`; `mountedFlagLine`
is `printf("%d\n", mounted)`; the rest are the literal messages of the
program. -/
inductive Line where
  | mntDirLine (dir : String)
  | mountedFlagLine (b : Bool)
  | mtabErrLine
  | syncErrLine (src dest : String)
  | syncOkLine (src dest : String)
  | usageLine
  | inotifyInitErrLine
  | addWatchErrLine (src : String)
  | watchingLine (src : String)
  | changeLine (src : String)
  | readErrLine
deriving DecidableEq

/-- Output channel of each line, as written by the source
(`std::cerr` / `std::cout`; `printf` writes to stdout). -/
inductive Chan where
  | stdout
  | stderr
deriving DecidableEq

/-- Which channel each `Line` goes to in the source. -/
def chanOf : Line → Chan
  | Line.mntDirLine _ => Chan.stdout
  | Line.mountedFlagLine _ => Chan.stdout
  | Line.mtabErrLine => Chan.stderr
  | Line.syncErrLine _ _ => Chan.stderr
  | Line.syncOkLine _ _ => Chan.stdout
  | Line.usageLine => Chan.stderr
  | Line.inotifyInitErrLine => Chan.stderr
  | Line.addWatchErrLine _ => Chan.stderr
  | Line.watchingLine _ => Chan.stdout
  | Line.changeLine _ => Chan.stdout
  | Line.readErrLine => Chan.stderr

/-- A mount-table snapshot: `none` when `setmntent("/etc/mtab","r")`
returns null, otherwise the ordered list of `mnt_dir` fields produced by
successive `getmntent` calls. -/
abbrev MountTable := Option (List String)

/-- The loop body of `is_drive_mounted`: print each entry's `mnt_dir`,
break at the first entry equal to `drive`. Returns the `mounted` flag and
the stdout lines emitted by the loop. -/
def scanEntries (drive : String) : List String → Bool × List Line
  | [] => (false, [])
  | e :: rest =>
    if e = drive then (true, [Line.mntDirLine e])
    else
      let r := scanEntries drive rest
      (r.1, Line.mntDirLine e :: r.2)

/-- `is_drive_mounted` from the source: on an unopenable mount table,
log to stderr and return `false`; otherwise scan the entries (printing
each, breaking at the first match), print the flag, return it. -/
def is_drive_mounted (mtab : MountTable) (drive : String) : Bool × List Line :=
  match mtab with
  | none => (false, [Line.mtabErrLine])
  | some entries =>
    let r := scanEntries drive entries
    (r.1, r.2 ++ [Line.mountedFlagLine r.1])

/-- The shell command string built by `sync_directory`:
`"rsync -avz --delete " + src + " " + dest`. -/
def rsyncCommand (src dest : String) : String :=
  "rsync -avz --delete " ++ src ++ " " ++ dest

/-- `sync_directory` from the source, given the exit status that
`system` returned for the command: one error line on non-zero status,
one success line on zero. -/
def sync_directory (exitStatus : Int) (src dest : String) : List Line :=
  if exitStatus ≠ 0 then [Line.syncErrLine src dest]
  else [Line.syncOkLine src dest]

/-- The environment of a run: `mtabs q` is the mount-table snapshot seen
by the q-th mount query of the run (the table is re-read on every call),
and `mirror m` is the exit status of the m-th `system` invocation. -/
structure World where
  mtabs : Nat → MountTable
  mirror : Nat → Int

/-- Run-state counters: `q` mount queries made so far, `m` mirror
invocations made so far. -/
structure St where
  q : Nat
  m : Nat
deriving DecidableEq

/-- `sync_to_all_drives` from the source: iterate the destinations in
list order; for each, query the (freshly read) mount table; if mounted,
invoke the mirror tool and log its outcome. Returns the final counters,
the list of mirror-tool invocations `(src, dest)` in order, and the
output lines in order. -/
def sync_to_all_drives (w : World) (st : St) (src : String) :
    List String → St × List (String × String) × List Line
  | [] => (st, [], [])
  | d :: ds =>
    let r := is_drive_mounted (w.mtabs st.q) d
    if r.1 then
      let out2 := sync_directory (w.mirror st.m) src d
      let rec1 := sync_to_all_drives w ⟨st.q + 1, st.m + 1⟩ src ds
      (rec1.1, (src, d) :: rec1.2.1, r.2 ++ out2 ++ rec1.2.2)
    else
      let rec1 := sync_to_all_drives w ⟨st.q + 1, st.m⟩ src ds
      (rec1.1, rec1.2.1, r.2 ++ rec1.2.2)

/-- Specification-side description of the mirror invocations of one
dispatch pass (from the spec's words): one invocation `(src, d)` for each
destination `d` reported mounted by the query it gets, in list order,
mentioning no mirror exit status at all. -/
def specMirrorCalls (mtabs : Nat → MountTable) (q : Nat) (src : String) :
    List String → List (String × String)
  | [] => []
  | d :: ds =>
    if (is_drive_mounted (mtabs q) d).1 then
      (src, d) :: specMirrorCalls mtabs (q + 1) src ds
    else specMirrorCalls mtabs (q + 1) src ds

/-- A per-destination outcome line: the synced / failed lines emitted by
`sync_directory`. (The source has no skipped-unmounted line at all, so no
constructor of `Line` qualifies as one.) -/
def isOutcomeLine : Line → Bool
  | Line.syncErrLine _ _ => true
  | Line.syncOkLine _ _ => true
  | _ => false

/-- Specification-side description of the outcome lines of one dispatch
pass: one synced-or-failed line per mounted destination, chosen by the
exit status its mirror invocation gets; nothing for an unmounted one. -/
def specOutcomeLines (w : World) (q m : Nat) (src : String) :
    List String → List Line
  | [] => []
  | d :: ds =>
    if (is_drive_mounted (w.mtabs q) d).1 then
      (if w.mirror m = 0 then Line.syncOkLine src d else Line.syncErrLine src d)
        :: specOutcomeLines w (q + 1) (m + 1) src ds
    else specOutcomeLines w (q + 1) m src ds

/-! ## The inotify read loop -/

/-- `sizeof(struct inotify_event)` on the target platform: four 4-byte
fields (`wd`, `mask`, `cookie`, `len`). -/
def EVENT_SIZE : Nat := 16

/-- `IN_MODIFY`. -/
def IN_MODIFY : Nat := 0x2
/-- `IN_MOVED_FROM`. -/
def IN_MOVED_FROM : Nat := 0x40
/-- `IN_MOVED_TO`. -/
def IN_MOVED_TO : Nat := 0x80
/-- `IN_CREATE`. -/
def IN_CREATE : Nat := 0x100
/-- `IN_DELETE`. -/
def IN_DELETE : Nat := 0x200

/-- The mask the watch is registered with and the batch scan tests
against: `IN_CREATE | IN_DELETE | IN_MODIFY | IN_MOVED_FROM |
IN_MOVED_TO`. -/
def watchMask : Nat :=
  IN_CREATE ||| IN_DELETE ||| IN_MODIFY ||| IN_MOVED_FROM ||| IN_MOVED_TO

/-- An inotify event record header as the scan reads it: its `mask` and
its `len` (the length of the name field that follows the header). -/
structure InEvent where
  mask : Nat
  len : Nat
deriving DecidableEq

/-- A delivered read buffer: `len` is the byte count `read` returned
(non-negative here; a negative return is modelled as `ReadResult.fail`),
and `eventAt i` is the event record starting at byte offset `i`. -/
structure Buffer where
  len : Nat
  eventAt : Nat → InEvent

/-- The offset step of the scan loop: `i += EVENT_SIZE + event->len`. -/
def nextOffset (buf : Buffer) (i : Nat) : Nat :=
  i + EVENT_SIZE + (buf.eventAt i).len

/-- An event record triggers a sync when its name is non-empty
(`event->len`) and its mask hits the watched classes. -/
def qualifies (e : InEvent) : Bool :=
  (e.len != 0) && (e.mask &&& watchMask != 0)

/-- All offsets the scan loop would visit from `i` if it never broke:
the parse of the whole buffer into consecutive records. -/
def scanOffsets (buf : Buffer) (i : Nat) : List Nat :=
  if h : i < buf.len then i :: scanOffsets buf (nextOffset buf i)
  else []
termination_by buf.len - i
decreasing_by simp only [nextOffset, EVENT_SIZE]; omega

/-- Whether scanning the buffer from offset `i` triggers a sync: walk the
records in order and stop with `true` at the first qualifying one. -/
def batchTriggers (buf : Buffer) (i : Nat) : Bool :=
  if h : i < buf.len then
    if qualifies (buf.eventAt i) then true
    else batchTriggers buf (nextOffset buf i)
  else false
termination_by buf.len - i
decreasing_by simp only [nextOffset, EVENT_SIZE]; omega

/-- The offsets the scan loop actually examines before it stops: every
record up to and including the first qualifying one (the `break` ends the
scan there). -/
def visitedOffsets (buf : Buffer) (i : Nat) : List Nat :=
  if h : i < buf.len then
    if qualifies (buf.eventAt i) then [i]
    else i :: visitedOffsets buf (nextOffset buf i)
  else []
termination_by buf.len - i
decreasing_by simp only [nextOffset, EVENT_SIZE]; omega

/-- One result of the blocking `read` on the inotify descriptor: either a
negative return (`fail`) or a delivered buffer. -/
inductive ReadResult where
  | fail
  | batch (buf : Buffer)

/-- Control-flow events of a run, for ordering statements: one `dispatch`
per `sync_to_all_drives` call, one `readOk`/`readErr` per `read`
return. -/
inductive Ev where
  | dispatch
  | readOk
  | readErr
deriving DecidableEq

/-- Whether a control-flow event is a `read` return. -/
def isReadEv : Ev → Bool
  | Ev.dispatch => false
  | Ev.readOk => true
  | Ev.readErr => true

/-- Process status after consuming the supplied read results: `exited c`
when the process returned with code `c`, `blocked` when it is still
running, blocked in the next `read`. -/
inductive Status where
  | exited (code : Int)
  | blocked
deriving DecidableEq

/-- Observable outcome of a run (or of its watch loop): output lines in
order, mirror-tool invocations in order, control-flow events in order,
and the final process status. -/
structure Out where
  lines : List Line
  calls : List (String × String)
  evs : List Ev
  status : Status
deriving DecidableEq

/-- The `while (true)` read loop of `main`: a failed `read` logs once and
breaks (after which `main` returns 0); a delivered buffer is scanned and,
when a qualifying record is found, one change line is printed and one
`sync_to_all_drives` runs, then the scan breaks; then the loop reads
again.  An exhausted read list leaves the loop blocked in `read`. -/
def watchLoop (w : World) (src : String) (ds : List String) :
    St → List ReadResult → Out
  | _, [] => ⟨[], [], [], Status.blocked⟩
  | _, ReadResult.fail :: _ =>
    ⟨[Line.readErrLine], [], [Ev.readErr], Status.exited 0⟩
  | st, ReadResult.batch buf :: rest =>
    if batchTriggers buf 0 then
      let pass := sync_to_all_drives w st src ds
      let o := watchLoop w src ds pass.1 rest
      ⟨Line.changeLine src :: pass.2.2 ++ o.lines,
       pass.2.1 ++ o.calls,
       Ev.readOk :: Ev.dispatch :: o.evs,
       o.status⟩
    else
      let o := watchLoop w src ds st rest
      ⟨o.lines, o.calls, Ev.readOk :: o.evs, o.status⟩

/-- Accumulator-style splitting of a character list into words at space
characters (empty words dropped): a model of how the shell that `system`
invokes turns the command string built by `sync_directory` into an
argument vector. -/
def splitWordsAux : List Char → List Char → List (List Char)
  | [], acc => if acc = [] then [] else [acc.reverse]
  | c :: cs, acc =>
    if c = ' ' then
      if acc = [] then splitWordsAux cs []
      else acc.reverse :: splitWordsAux cs []
    else splitWordsAux cs (c :: acc)

/-- Split a character list into space-separated words. -/
def splitWords (s : List Char) : List (List Char) :=
  splitWordsAux s []

/-- The argument vector (program name first) that the shell derives from
a command string. -/
def commandArgv (cmd : String) : List String :=
  (splitWords cmd.toList).map String.mk

/-- A world whose mount table can never be opened and whose mirror tool
always exits 0. -/
def wNone : World :=
  ⟨fun _ => none, fun _ => 0⟩

/-- A world where every mount-table read shows exactly `/mnt/ssd1`
mounted and the mirror tool always exits 0. -/
def wSsd1 : World :=
  ⟨fun _ => some ["/mnt/ssd1"], fun _ => 0⟩

/-- A 20-byte read buffer holding one `IN_CREATE` record with a 4-byte
name field. -/
def bufCreate : Buffer :=
  ⟨20, fun _ => ⟨IN_CREATE, 4⟩⟩

/-- `main` from the source (named `mainRun` here, since Lean reserves
`main` for an IO entry point): usage check (`argc < 3`), `inotify_init`,
`inotify_add_watch`, banner, one initial `sync_to_all_drives`, then the
read loop.  `argv` includes the program name; `initFd` and `addWatchFd`
are the values the two inotify calls return. -/
def mainRun (w : World) (argv : List String) (initFd addWatchFd : Int)
    (reads : List ReadResult) : Out :=
  if argv.length < 3 then ⟨[Line.usageLine], [], [], Status.exited 1⟩
  else
    let src := argv.getD 1 ""
    let ds := argv.drop 2
    if initFd < 0 then ⟨[Line.inotifyInitErrLine], [], [], Status.exited 1⟩
    else if addWatchFd < 0 then
      ⟨[Line.addWatchErrLine src], [], [], Status.exited 1⟩
    else
      let pass := sync_to_all_drives w ⟨0, 0⟩ src ds
      let o := watchLoop w src ds pass.1 reads
      ⟨Line.watchingLine src :: pass.2.2 ++ o.lines,
       pass.2.1 ++ o.calls,
       Ev.dispatch :: o.evs,
       o.status⟩

/-! ## Helper lemmas -/

theorem scanEntries_fst_iff (drive : String) (entries : List String) :
    (scanEntries drive entries).1 = true ↔ drive ∈ entries := by
  induction entries with
  | nil => simp [scanEntries]
  | cons e rest ih =>
    by_cases he : e = drive
    · subst he
      simp [scanEntries]
    · simp only [scanEntries, if_neg he, ih, List.mem_cons]
      constructor
      · exact Or.inr
      · rintro (h | h)
        · exact absurd h.symm he
        · exact h

theorem scanEntries_filter_outcome (drive : String) (entries : List String) :
    ((scanEntries drive entries).2).filter isOutcomeLine = [] := by
  induction entries with
  | nil => simp [scanEntries]
  | cons e rest ih =>
    by_cases he : e = drive <;> simp [scanEntries, he, isOutcomeLine, ih]

theorem is_drive_mounted_filter_outcome (mt : MountTable) (d : String) :
    ((is_drive_mounted mt d).2).filter isOutcomeLine = [] := by
  match mt with
  | none => simp [is_drive_mounted, isOutcomeLine]
  | some entries =>
    simp [is_drive_mounted, List.filter_append, scanEntries_filter_outcome,
      isOutcomeLine]

theorem sync_directory_filter_outcome (e : Int) (src d : String) :
    (sync_directory e src d).filter isOutcomeLine = sync_directory e src d := by
  by_cases h : e = 0 <;> simp [sync_directory, h, isOutcomeLine]

theorem scanEntries_readErr_not_mem (drive : String) (entries : List String) :
    Line.readErrLine ∉ (scanEntries drive entries).2 := by
  induction entries with
  | nil => simp [scanEntries]
  | cons e rest ih =>
    by_cases he : e = drive <;> simp [scanEntries, he, ih]

theorem is_drive_mounted_readErr_not_mem (mt : MountTable) (d : String) :
    Line.readErrLine ∉ (is_drive_mounted mt d).2 := by
  match mt with
  | none => simp [is_drive_mounted]
  | some entries =>
    simp [is_drive_mounted, List.mem_append, scanEntries_readErr_not_mem]

theorem sync_directory_readErr_not_mem (e : Int) (src d : String) :
    Line.readErrLine ∉ sync_directory e src d := by
  by_cases h : e = 0 <;> simp [sync_directory, h]

theorem sync_pass_readErr_not_mem (w : World) (src : String) (ds : List String) :
    ∀ st : St, Line.readErrLine ∉ (sync_to_all_drives w st src ds).2.2 := by
  induction ds with
  | nil => intro st; simp [sync_to_all_drives]
  | cons d ds ih =>
    intro st
    by_cases hm : (is_drive_mounted (w.mtabs st.q) d).1 = true <;>
      simp [sync_to_all_drives, hm, List.mem_append,
        is_drive_mounted_readErr_not_mem, sync_directory_readErr_not_mem, ih]

theorem sync_pass_calls_spec (w : World) (src : String) (ds : List String) :
    ∀ st : St,
      (sync_to_all_drives w st src ds).2.1 = specMirrorCalls w.mtabs st.q src ds := by
  induction ds with
  | nil => intro st; simp [sync_to_all_drives, specMirrorCalls]
  | cons d ds ih =>
    intro st
    by_cases hm : (is_drive_mounted (w.mtabs st.q) d).1 = true <;>
      simp [sync_to_all_drives, specMirrorCalls, hm, ih]

theorem sync_pass_outcome_spec (w : World) (src : String) (ds : List String) :
    ∀ st : St,
      ((sync_to_all_drives w st src ds).2.2).filter isOutcomeLine
        = specOutcomeLines w st.q st.m src ds := by
  induction ds with
  | nil => intro st; simp [sync_to_all_drives, specOutcomeLines]
  | cons d ds ih =>
    intro st
    by_cases hm : (is_drive_mounted (w.mtabs st.q) d).1 = true
    · by_cases h0 : w.mirror st.m = 0 <;>
        simp [sync_to_all_drives, specOutcomeLines, hm, h0, List.filter_append,
          is_drive_mounted_filter_outcome, sync_directory, isOutcomeLine, ih]
    · simp [sync_to_all_drives, specOutcomeLines, hm, List.filter_append,
        is_drive_mounted_filter_outcome, ih]

theorem sync_pass_unavail (w : World) (src : String) (ds : List String)
    (hm : ∀ k, w.mtabs k = none) :
    ∀ st : St,
      (sync_to_all_drives w st src ds).2
        = ([], List.replicate ds.length Line.mtabErrLine) := by
  induction ds with
  | nil => intro st; simp [sync_to_all_drives]
  | cons d ds ih =>
    intro st
    simp [sync_to_all_drives, hm, is_drive_mounted, ih, List.replicate_succ]

theorem batchTriggers_eq_any (buf : Buffer) (i : Nat) :
    batchTriggers buf i = (scanOffsets buf i).any (fun j => qualifies (buf.eventAt j)) := by
  induction i using batchTriggers.induct buf with
  | case1 i h hq =>
    rw [batchTriggers, scanOffsets]
    simp [h, hq]
  | case2 i h hq ih =>
    rw [batchTriggers, scanOffsets]
    simp [h, hq, ih]
  | case3 i h =>
    rw [batchTriggers, scanOffsets]
    simp [h]

theorem scanOffsets_chain (buf : Buffer) (i : Nat) :
    List.Chain' (fun a b => b = nextOffset buf a ∧ a < b) (scanOffsets buf i) := by
  induction i using scanOffsets.induct buf with
  | case1 i h ih =>
    rw [scanOffsets]
    simp only [h, dif_pos]
    rw [List.chain'_cons']
    refine ⟨?_, ih⟩
    intro b hb
    rw [scanOffsets] at hb
    by_cases h2 : nextOffset buf i < buf.len
    · simp only [h2, dif_pos, List.head?_cons, Option.mem_def, Option.some.injEq] at hb
      refine ⟨hb.symm, ?_⟩
      subst hb
      simp only [nextOffset, EVENT_SIZE]
      omega
    · simp [h2] at hb
  | case2 i h =>
    rw [scanOffsets]
    simp [h]

theorem scanOffsets_all_lt (buf : Buffer) (i : Nat) :
    (scanOffsets buf i).all (fun j => decide (j < buf.len)) = true := by
  induction i using scanOffsets.induct buf with
  | case1 i h ih =>
    rw [scanOffsets]
    simp only [h, dif_pos, List.all_cons, ih, Bool.and_true]
    simp [h]
  | case2 i h =>
    rw [scanOffsets]
    simp [h]

theorem visitedOffsets_dropLast (buf : Buffer) (i : Nat) :
    (visitedOffsets buf i).dropLast.all (fun j => !(qualifies (buf.eventAt j))) = true := by
  induction i using visitedOffsets.induct buf with
  | case1 i h hq =>
    rw [visitedOffsets]
    simp [h, hq]
  | case2 i h hq ih =>
    rw [visitedOffsets]
    simp only [h, dif_pos, hq, if_false, Bool.false_eq_true]
    by_cases h2 : visitedOffsets buf (nextOffset buf i) = []
    · simp [h2]
    · rw [List.dropLast_cons_of_ne_nil h2]
      simp only [List.all_cons, ih, Bool.and_true]
      simp [hq]
  | case3 i h =>
    rw [visitedOffsets]
    simp [h]

theorem watchLoop_evs_takeWhile (w : World) (src : String) (ds : List String)
    (st : St) (reads : List ReadResult) :
    (watchLoop w src ds st reads).evs.takeWhile (fun e => !(isReadEv e)) = [] := by
  match reads with
  | [] => rfl
  | ReadResult.fail :: rest => rfl
  | ReadResult.batch buf :: rest =>
    by_cases ht : batchTriggers buf 0 = true <;> simp [watchLoop, ht, isReadEv]

theorem watchLoop_fail (w : World) (src : String) (ds : List String) :
    ∀ reads : List ReadResult, ReadResult.fail ∈ reads → ∀ st : St,
      (watchLoop w src ds st reads).status = Status.exited 0
      ∧ (watchLoop w src ds st reads).lines.count Line.readErrLine = 1 := by
  intro reads
  induction reads with
  | nil => intro hf; simp at hf
  | cons r rest ih =>
    intro hf st
    match r with
    | ReadResult.fail => exact ⟨rfl, rfl⟩
    | ReadResult.batch buf =>
      have hf' : ReadResult.fail ∈ rest := by
        rcases List.mem_cons.mp hf with h | h
        · exact ReadResult.noConfusion h
        · exact h
      by_cases ht : batchTriggers buf 0 = true
      · obtain ⟨hs, hc⟩ := ih hf' (sync_to_all_drives w st src ds).1
        constructor
        · simpa [watchLoop, ht] using hs
        · simp only [watchLoop, ht, if_true]
          simp [List.count_cons, List.count_append, hc,
            List.count_eq_zero.mpr (sync_pass_readErr_not_mem w src ds st)]
      · obtain ⟨hs, hc⟩ := ih hf' st
        exact ⟨by simpa [watchLoop, ht] using hs, by simpa [watchLoop, ht] using hc⟩

theorem mainRun_setup_ok (w : World) (argv : List String) (initFd awFd : Int)
    (reads : List ReadResult) (h3 : 3 ≤ argv.length) (hi : 0 ≤ initFd)
    (ha : 0 ≤ awFd) :
    mainRun w argv initFd awFd reads
      = ⟨Line.watchingLine (argv.getD 1 "")
            :: (sync_to_all_drives w ⟨0, 0⟩ (argv.getD 1 "") (argv.drop 2)).2.2
            ++ (watchLoop w (argv.getD 1 "") (argv.drop 2)
                  (sync_to_all_drives w ⟨0, 0⟩ (argv.getD 1 "") (argv.drop 2)).1
                  reads).lines,
          (sync_to_all_drives w ⟨0, 0⟩ (argv.getD 1 "") (argv.drop 2)).2.1
            ++ (watchLoop w (argv.getD 1 "") (argv.drop 2)
                  (sync_to_all_drives w ⟨0, 0⟩ (argv.getD 1 "") (argv.drop 2)).1
                  reads).calls,
          Ev.dispatch
            :: (watchLoop w (argv.getD 1 "") (argv.drop 2)
                  (sync_to_all_drives w ⟨0, 0⟩ (argv.getD 1 "") (argv.drop 2)).1
                  reads).evs,
          (watchLoop w (argv.getD 1 "") (argv.drop 2)
              (sync_to_all_drives w ⟨0, 0⟩ (argv.getD 1 "") (argv.drop 2)).1
              reads).status⟩ := by
  simp only [mainRun]
  rw [if_neg (by omega), if_neg (by omega), if_neg (by omega)]

/-! ## Claims -/

/-- C1: a single `sync_to_all_drives` pass invokes the mirror tool
exactly once for each destination whose path the (freshly read) mount
table reports mounted at query time and zero times for each that is not,
iterating the destinations in list order; and the mirror exit statuses
(`w.mirror`) have no influence on which invocations happen, so a failure
on one destination never prevents the attempt on a later one. -/
theorem sync_pass_mirror_once_per_mounted (w : World) (st : St) (src : String)
    (ds : List String) (mir : Nat → Int) :
    (sync_to_all_drives w st src ds).2.1 = specMirrorCalls w.mtabs st.q src ds
    ∧ (sync_to_all_drives ⟨w.mtabs, mir⟩ st src ds).2.1
        = (sync_to_all_drives w st src ds).2.1 := by
  refine ⟨sync_pass_calls_spec w src ds st, ?_⟩
  rw [sync_pass_calls_spec, sync_pass_calls_spec]

/-- C2: scanning a delivered batch triggers a sync exactly when some
record of the batch qualifies (non-zero name length and a mask hitting
the watched classes); a batch delivered in one read cycle yields exactly
one dispatch when it triggers and zero otherwise, never more; and every
record the scan examines before the one it stops at is non-qualifying
(so zero-length names are skipped and the scan stops at the first
qualifying record). -/
theorem batch_coalesces_to_one_dispatch (w : World) (src : String)
    (ds : List String) (st : St) (buf : Buffer) :
    batchTriggers buf 0 = (scanOffsets buf 0).any (fun j => qualifies (buf.eventAt j))
    ∧ (watchLoop w src ds st [ReadResult.batch buf]).evs.count Ev.dispatch
        = (if batchTriggers buf 0 then 1 else 0)
    ∧ (visitedOffsets buf 0).dropLast.all (fun j => !(qualifies (buf.eventAt j))) = true := by
  refine ⟨batchTriggers_eq_any buf 0, ?_, visitedOffsets_dropLast buf 0⟩
  by_cases ht : batchTriggers buf 0 = true <;> simp [watchLoop, ht]

/-- C4 (amended): in every dispatch pass, each destination reported
mounted produces exactly one outcome line — synced on mirror exit 0,
failed otherwise — and a destination that is not mounted produces no
outcome line at all (the source emits no skipped-unmounted status
line). -/
theorem outcome_lines_per_mounted_destination (w : World) (st : St)
    (src : String) (ds : List String) :
    ((sync_to_all_drives w st src ds).2.2).filter isOutcomeLine
      = specOutcomeLines w st.q st.m src ds :=
  sync_pass_outcome_spec w src ds st

/-- C4 counterexample: with only `/mnt/ssd1` mounted, a pass over the
single destination `/mnt/ssd2` produces zero outcome lines (the claimed
skipped-unmounted status line does not exist): the only output is the
mount-table debug dump and the flag print. -/
theorem unmounted_no_skip_line_cex :
    ((sync_to_all_drives wSsd1 ⟨0, 0⟩ "/data" ["/mnt/ssd2"]).2.2).countP isOutcomeLine
        ≠ (["/mnt/ssd2"] : List String).length
    ∧ (sync_to_all_drives wSsd1 ⟨0, 0⟩ "/data" ["/mnt/ssd2"]).2.2
        = [Line.mntDirLine "/mnt/ssd1", Line.mountedFlagLine false] := by
  constructor <;> decide

/-- C6: an unopenable mount table makes `is_drive_mounted` log the
condition to stderr and report not-mounted; a whole pass under that
condition invokes the mirror tool for no destination, still processes
every destination (one log line each), and neither the pass nor the
process is aborted (with no pending reads the process is still running,
blocked in `read`). -/
theorem mtab_unavailable_fail_safe (w : World) (st : St) (src d : String)
    (ds : List String) (argv : List String) (initFd awFd : Int)
    (hm : ∀ k, w.mtabs k = none) (h3 : 3 ≤ argv.length)
    (hi : 0 ≤ initFd) (ha : 0 ≤ awFd) :
    is_drive_mounted none d = (false, [Line.mtabErrLine])
    ∧ (sync_to_all_drives w st src ds).2.1 = []
    ∧ (sync_to_all_drives w st src ds).2.2 = List.replicate ds.length Line.mtabErrLine
    ∧ chanOf Line.mtabErrLine = Chan.stderr
    ∧ (mainRun w argv initFd awFd []).status = Status.blocked := by
  have h := sync_pass_unavail w src ds hm st
  refine ⟨rfl, ?_, ?_, rfl, ?_⟩
  · rw [show (sync_to_all_drives w st src ds).2.1
        = ((sync_to_all_drives w st src ds).2).1 from rfl, h]
  · rw [show (sync_to_all_drives w st src ds).2.2
        = ((sync_to_all_drives w st src ds).2).2 from rfl, h]
  · rw [mainRun_setup_ok w argv initFd awFd [] h3 hi ha]
    rfl

/-- C6 witness: the fail-safe theorem instantiated at a concrete world
whose mount table never opens. -/
theorem mtab_unavailable_fail_safe_witness :
    is_drive_mounted none "/mnt/ssd1" = (false, [Line.mtabErrLine])
    ∧ (sync_to_all_drives wNone ⟨0, 0⟩ "/data" ["/mnt/ssd1", "/mnt/ssd2"]).2.1 = []
    ∧ (sync_to_all_drives wNone ⟨0, 0⟩ "/data" ["/mnt/ssd1", "/mnt/ssd2"]).2.2
        = List.replicate (["/mnt/ssd1", "/mnt/ssd2"] : List String).length Line.mtabErrLine
    ∧ chanOf Line.mtabErrLine = Chan.stderr
    ∧ (mainRun wNone ["prog", "/data", "/mnt/ssd1"] 0 0 []).status = Status.blocked :=
  mtab_unavailable_fail_safe wNone ⟨0, 0⟩ "/data" "/mnt/ssd1"
    ["/mnt/ssd1", "/mnt/ssd2"] ["prog", "/data", "/mnt/ssd1"] 0 0
    (fun _ => rfl) (by decide) (by decide) (by decide)

/-- C7: `is_drive_mounted` on a readable mount table reports a path
mounted iff some entry's mount-directory field equals the path exactly;
in particular no trailing-slash normalization happens in either
direction. -/
theorem is_drive_mounted_iff_mem (entries : List String) (drive : String) :
    ((is_drive_mounted (some entries) drive).1 = true ↔ drive ∈ entries)
    ∧ (is_drive_mounted (some ["/mnt/ssd1"]) "/mnt/ssd1/").1 = false
    ∧ (is_drive_mounted (some ["/mnt/ssd1/"]) "/mnt/ssd1").1 = false := by
  refine ⟨?_, by decide, by decide⟩
  simp only [is_drive_mounted]
  exact scanEntries_fst_iff drive entries

/-- C8: with fewer than two arguments after the program name the run
prints exactly the usage line — which goes to standard error — exits
with status 1, and performs no dispatch and no mirror invocation. -/
theorem usage_exit_one_no_dispatch (w : World) (argv : List String)
    (initFd awFd : Int) (reads : List ReadResult) (h : argv.length < 3) :
    mainRun w argv initFd awFd reads = ⟨[Line.usageLine], [], [], Status.exited 1⟩
    ∧ chanOf Line.usageLine = Chan.stderr := by
  refine ⟨?_, rfl⟩
  rw [mainRun, if_pos h]

/-- C8 witness: the usage theorem at one supplied argument. -/
theorem usage_exit_one_no_dispatch_witness :
    mainRun wNone ["prog", "/data"] 0 0 [] = ⟨[Line.usageLine], [], [], Status.exited 1⟩
    ∧ chanOf Line.usageLine = Chan.stderr :=
  usage_exit_one_no_dispatch wNone ["prog", "/data"] 0 0 [] (by decide)

/-- C9: in every run that passes argument validation and watch setup,
the control-flow event trace begins with exactly one dispatch before the
first `read` return: the startup dispatch happens-before any
notification processing, and it happens even when no notification ever
arrives. -/
theorem startup_dispatch_before_any_read (w : World) (argv : List String)
    (initFd awFd : Int) (reads : List ReadResult)
    (h3 : 3 ≤ argv.length) (hi : 0 ≤ initFd) (ha : 0 ≤ awFd) :
    (mainRun w argv initFd awFd reads).evs.takeWhile (fun e => !(isReadEv e))
      = [Ev.dispatch] := by
  rw [mainRun_setup_ok w argv initFd awFd reads h3 hi ha]
  have hd : (fun e => !(isReadEv e)) Ev.dispatch = true := rfl
  rw [show ({ lines := _, calls := _, evs := Ev.dispatch
        :: (watchLoop w (argv.getD 1 "") (argv.drop 2)
              (sync_to_all_drives w ⟨0, 0⟩ (argv.getD 1 "") (argv.drop 2)).1
              reads).evs, status := _ } : Out).evs
      = Ev.dispatch
        :: (watchLoop w (argv.getD 1 "") (argv.drop 2)
              (sync_to_all_drives w ⟨0, 0⟩ (argv.getD 1 "") (argv.drop 2)).1
              reads).evs from rfl]
  rw [List.takeWhile_cons, if_pos hd, watchLoop_evs_takeWhile]

/-- C9 witness: the startup-dispatch theorem on a run that never
receives a notification. -/
theorem startup_dispatch_before_any_read_witness :
    (mainRun wNone ["prog", "/data", "/mnt/ssd1"] 0 0 []).evs.takeWhile
        (fun e => !(isReadEv e)) = [Ev.dispatch] :=
  startup_dispatch_before_any_read wNone ["prog", "/data", "/mnt/ssd1"] 0 0 []
    (by decide) (by decide) (by decide)

/-- C10: the batch scan terminates: the event-header size is strictly
positive, each visited offset is within the buffer, and each step moves
to exactly `i + EVENT_SIZE + len` which is strictly larger, so the scan
index strictly increases toward the buffer length. -/
theorem scan_index_strictly_increases (buf : Buffer) (i : Nat) :
    0 < EVENT_SIZE
    ∧ List.Chain' (fun a b => b = nextOffset buf a ∧ a < b) (scanOffsets buf i)
    ∧ (scanOffsets buf i).all (fun j => decide (j < buf.len)) = true :=
  ⟨by decide, scanOffsets_chain buf i, scanOffsets_all_lt buf i⟩

/-- C3 (amended): a failed read of the notification stream after setup
produces exactly one read-error diagnostic line (on stderr), terminates
the watch loop, and the process exits — but with exit code 0, not a
non-zero code. -/
theorem read_failure_logs_once_and_exits_zero (w : World) (argv : List String)
    (initFd awFd : Int) (reads : List ReadResult)
    (h3 : 3 ≤ argv.length) (hi : 0 ≤ initFd) (ha : 0 ≤ awFd)
    (hf : ReadResult.fail ∈ reads) :
    (mainRun w argv initFd awFd reads).status = Status.exited 0
    ∧ (mainRun w argv initFd awFd reads).lines.count Line.readErrLine = 1
    ∧ chanOf Line.readErrLine = Chan.stderr := by
  obtain ⟨hs, hc⟩ := watchLoop_fail w (argv.getD 1 "") (argv.drop 2) reads hf
      (sync_to_all_drives w ⟨0, 0⟩ (argv.getD 1 "") (argv.drop 2)).1
  rw [mainRun_setup_ok w argv initFd awFd reads h3 hi ha]
  refine ⟨hs, ?_, rfl⟩
  have h0 : List.count Line.readErrLine
      (sync_to_all_drives w ⟨0, 0⟩ (argv.getD 1 "") (argv.drop 2)).2.2 = 0 :=
    List.count_eq_zero.mpr
      (sync_pass_readErr_not_mem w (argv.getD 1 "") (argv.drop 2) ⟨0, 0⟩)
  simp only [List.count_cons, List.count_append, h0, hc]
  simp

/-- C3 counterexample: a concrete run whose only read fails emits the
diagnostic, terminates, and exits with code 0 — refuting the claimed
non-zero exit code. -/
theorem read_failure_exit_code_zero_cex :
    (mainRun wNone ["prog", "/data", "/mnt/ssd1"] 0 0 [ReadResult.fail]).status
        = Status.exited 0
    ∧ (mainRun wNone ["prog", "/data", "/mnt/ssd1"] 0 0
        [ReadResult.fail]).lines.count Line.readErrLine = 1 := by
  constructor <;> rfl

/-- C3 witness: the amended theorem at a concrete failing run. -/
theorem read_failure_logs_once_and_exits_zero_witness :
    (mainRun wNone ["prog", "/data", "/mnt/ssd2"] 0 0 [ReadResult.fail]).status
        = Status.exited 0
    ∧ (mainRun wNone ["prog", "/data", "/mnt/ssd2"] 0 0
        [ReadResult.fail]).lines.count Line.readErrLine = 1
    ∧ chanOf Line.readErrLine = Chan.stderr :=
  read_failure_logs_once_and_exits_zero wNone ["prog", "/data", "/mnt/ssd2"] 0 0
    [ReadResult.fail] (by decide) (by decide) (by decide)
    (List.mem_singleton.mpr rfl)

theorem splitWordsAux_word (v : List Char) :
    ∀ rest acc : List Char, (∀ c ∈ v, c ≠ ' ') →
      splitWordsAux (v ++ rest) acc = splitWordsAux rest (v.reverse ++ acc) := by
  induction v with
  | nil => intro rest acc _; simp
  | cons c cs ih =>
    intro rest acc hw
    have hc : c ≠ ' ' := hw c (List.mem_cons_self c cs)
    show splitWordsAux (c :: (cs ++ rest)) acc
        = splitWordsAux rest ((c :: cs).reverse ++ acc)
    rw [splitWordsAux, if_neg hc]
    rw [ih rest (c :: acc) (fun x hx => hw x (List.mem_cons_of_mem c hx))]
    simp [List.append_assoc]

theorem splitWordsAux_space_nonnil (rest acc : List Char) (h : acc ≠ []) :
    splitWordsAux (' ' :: rest) acc = acc.reverse :: splitWordsAux rest [] := by
  simp [splitWordsAux, h]

theorem splitWords_word_cons (v rest : List Char) (hw : ∀ c ∈ v, c ≠ ' ')
    (hne : v ≠ []) :
    splitWordsAux (v ++ ' ' :: rest) [] = v :: splitWordsAux rest [] := by
  rw [splitWordsAux_word v (' ' :: rest) [] hw, List.append_nil]
  rw [splitWordsAux_space_nonnil rest v.reverse (by simpa using hne)]
  simp

theorem splitWords_last_word (v : List Char) (hw : ∀ c ∈ v, c ≠ ' ')
    (hne : v ≠ []) :
    splitWordsAux v [] = [v] := by
  have h := splitWordsAux_word v [] [] hw
  rw [List.append_nil] at h
  rw [h]
  simp [splitWordsAux, hne]

/-- C5 (amended): the mirror invocation is a process whose argument
vector is the rsync tool name, the option flags `-avz` and `--delete`,
and then the source and destination paths (so not only the two paths, as
long as both paths are non-empty and contain no space for the shell to
split on); and the synced/failed outcome of the invocation is determined
solely by whether the tool's exit status is zero. -/
theorem rsync_args_and_exit_status (src dest : String) (e1 e2 : Int)
    (hs : src.toList ≠ []) (hd : dest.toList ≠ [])
    (hsn : ∀ c ∈ src.toList, c ≠ ' ') (hdn : ∀ c ∈ dest.toList, c ≠ ' ') :
    commandArgv (rsyncCommand src dest) = ["rsync", "-avz", "--delete", src, dest]
    ∧ (sync_directory e1 src dest = sync_directory e2 src dest ↔ (e1 = 0 ↔ e2 = 0)) := by
  constructor
  · have htl : (rsyncCommand src dest).toList
        = "rsync".toList ++ ' ' :: ("-avz".toList ++ ' ' :: ("--delete".toList
            ++ ' ' :: (src.toList ++ ' ' :: dest.toList))) := by
      have h1 : (rsyncCommand src dest).toList
          = "rsync -avz --delete ".toList ++ src.toList ++ " ".toList ++ dest.toList := rfl
      rw [h1]
      rw [show "rsync -avz --delete ".toList
          = "rsync".toList ++ ' ' :: ("-avz".toList ++ ' ' :: ("--delete".toList
              ++ [' '])) from rfl]
      simp [List.append_assoc]
    rw [commandArgv, htl, splitWords]
    rw [splitWords_word_cons "rsync".toList _ (by decide) (by decide)]
    rw [splitWords_word_cons "-avz".toList _ (by decide) (by decide)]
    rw [splitWords_word_cons "--delete".toList _ (by decide) (by decide)]
    rw [splitWords_word_cons src.toList _ hsn hs]
    rw [splitWords_last_word dest.toList hdn hd]
    rfl
  · by_cases h1 : e1 = 0 <;> by_cases h2 : e2 = 0 <;> simp [sync_directory, h1, h2]

/-- C5 counterexample: at source `/a` and destination `/b` the actual
argument vector after the program name is `-avz --delete /a /b`, not
exactly the two paths. -/
theorem rsync_args_not_exactly_paths_cex :
    commandArgv (rsyncCommand "/a" "/b") = ["rsync", "-avz", "--delete", "/a", "/b"]
    ∧ (commandArgv (rsyncCommand "/a" "/b")).drop 1 ≠ ["/a", "/b"] := by
  constructor <;> decide

/-- C5 witness: the amended theorem at concrete paths and exit
statuses 0 and 1. -/
theorem rsync_args_and_exit_status_witness :
    commandArgv (rsyncCommand "/data" "/mnt/ssd1")
        = ["rsync", "-avz", "--delete", "/data", "/mnt/ssd1"]
    ∧ (sync_directory 0 "/data" "/mnt/ssd1" = sync_directory 1 "/data" "/mnt/ssd1"
        ↔ ((0 : Int) = 0 ↔ (1 : Int) = 0)) :=
  rsync_args_and_exit_status "/data" "/mnt/ssd1" 0 1 (by decide) (by decide)
    (by decide) (by decide)
